import Mathlib

/-!
Verification of the kiroku interactive note-taking engine.

Strings from the Go source are modelled as `List Char`. Each definition is a
shallow embedding of one function of the repository; the doc comment names the
Go symbol it is translated from.
-/

namespace Kiroku

/-- Characters treated as whitespace by Go's `unicode.IsSpace` in the Latin-1
range: tab, newline, vertical tab, form feed, carriage return, space, NEL
(U+0085) and NBSP (U+00A0).  All text handled by the editor protocol markers is
ASCII, so the Latin-1 table is the relevant fragment. -/
def isSpace (c : Char) : Bool :=
  c = ' ' || c = '\t' || c = '\n' || c = '\u000B' || c = '\u000C' || c = '\r' ||
  c = '\u0085' || c = '\u00A0'

/-- Go `strings.TrimSpace`: drop leading and trailing whitespace. -/
def trimSpace (s : List Char) : List Char :=
  ((s.dropWhile isSpace).reverse.dropWhile isSpace).reverse

/-- Whether a line begins with the title marker `"# "`
(Go `strings.HasPrefix(s, "# ")`). -/
def hasTitleMarker : List Char → Bool
  | '#' :: ' ' :: _ => true
  | _ => false

/-- Go `strings.TrimPrefix(s, "# ")` as used by
`EditorService.ReadEditedContent`: remove the two-character title marker when
present, otherwise return the string unchanged. -/
def trimPrefixHashSpace (s : List Char) : List Char :=
  if hasTitleMarker s then s.drop 2 else s

/-- Split a string at its first newline, returning the part before and the part
after; `none` when the string contains no newline.  Helper for the embedding of
Go `strings.SplitN(s, "\n", 3)`. -/
def breakNewline : List Char → Option (List Char × List Char)
  | [] => none
  | c :: cs =>
    if c = '\n' then some ([], cs)
    else
      match breakNewline cs with
      | none => none
      | some (a, b) => some (c :: a, b)

/-- Go `strings.SplitN(s, "\n", 3)`: at most three parts, the last part keeps
any remaining newlines.  Always returns at least one part. -/
def splitN3 (s : List Char) : List (List Char) :=
  match breakNewline s with
  | none => [s]
  | some (l0, r) =>
    match breakNewline r with
    | none => [l0, r]
    | some (l1, r2) => [l0, l1, r2]

/-- The handoff buffer written by `EditorService.PrepareEdit`
(src/unnamed/part_012): `fmt.Sprintf("# %s\n\n%s", title, content)`. -/
def prepareEditContent (title content : List Char) : List Char :=
  '#' :: ' ' :: (title ++ '\n' :: '\n' :: content)

/-- The parse step of `EditorService.ReadEditedContent`
(src/unnamed/part_012 lines 110-130): split the file into at most three parts
on newlines; the first part with the `"# "` marker removed and trimmed becomes
the new title unless that is empty (then the original title is kept); the new
content is the trimmed third part, or the trimmed second part when there is no
third, or empty (Go zero value) when the file has a single line. -/
def parseEditedContent (data originalTitle : List Char) : List Char × List Char :=
  match splitN3 data with
  | [] => (originalTitle, [])
  | l0 :: rest =>
    let t := trimSpace (trimPrefixHashSpace l0)
    let newTitle := if t = [] then originalTitle else t
    let newContent :=
      match rest with
      | [l1] => trimSpace l1
      | [_, l2] => trimSpace l2
      | _ => []
    (newTitle, newContent)

/-- Outcome of `os.ReadFile` on the handoff file inside
`EditorService.ReadEditedContent`: `failed` models an I/O error, `ok` carries
the bytes read. -/
inductive ReadOutcome
  | failed
  | ok (data : List Char)
deriving DecidableEq, Repr

/-- `EditorService.ReadEditedContent` (src/unnamed/part_012 lines 101-131)
without its `defer os.Remove`: `none` models the error return when the file
cannot be read, otherwise the parsed (title, content) pair.  The deferred
removal of the temp file is tracked separately by `tempFileLeftBehind`. -/
def readEditedContent (file : ReadOutcome) (originalTitle : List Char) :
    Option (List Char × List Char) :=
  match file with
  | .failed => none
  | .ok data => some (parseEditedContent data originalTitle)

/-- Outcome of `EditorService.PrepareEdit` (src/unnamed/part_012 lines 78-98):
`createFailed` models `os.CreateTemp` failing (no file exists), `writeFailed`
models `WriteString` failing (PrepareEdit removes the file and errors), `ok`
means the handoff file was written and its path returned. -/
inductive PrepareOutcome
  | createFailed
  | writeFailed
  | ok
deriving DecidableEq, Repr

/-- Exit condition the `tea.ExecProcess` callback reports in
`EditorFinishedMsg.Err` (src/internal/tui/app.go line 870-877): `failed`
covers both a launch failure and a non-zero process exit. -/
inductive EditorExit
  | success
  | failed
deriving DecidableEq, Repr

/-- Whether the temporary handoff file still exists after the editor protocol
runs to completion, as a function of the prepare outcome, the process exit,
and whether a current note and recorded temp-file path survive to
`handleEditorFinished`.  Traced from the source:
on `os.CreateTemp` failure no file was created; on `WriteString` failure
`PrepareEdit` removes the file itself (part_012 line 90); when the completion
message carries an error, `handleEditorFinished` returns after setting a
status message without calling `ReadEditedContent` (app.go lines 243-248), so
nothing removes the file; likewise when no current note or temp path is set
(app.go lines 250-253); only when `ReadEditedContent` runs does its
`defer os.Remove(tmpFilePath)` (part_012 line 103) delete the file,
regardless of the read or parse outcome. -/
def tempFileLeftBehind : PrepareOutcome → EditorExit → Bool → Bool
  | .createFailed, _, _ => false
  | .writeFailed, _, _ => false
  | .ok, .failed, _ => true
  | .ok, .success, false => true
  | .ok, .success, true => false

/-- The note entity, `models.Note` (src/internal/models/note.go).  The time
fields (created/updated/due) are omitted: no verified claim mentions them. -/
structure Note where
  id : Int
  title : List Char
  content : List Char
  folderId : Option Int
  templateId : Option Int
  isTodo : Bool
  isDone : Bool
  priority : Int
  tags : List Char
  starred : Bool
deriving DecidableEq, Repr

/-- The folder entity, `models.Folder`, restricted to the fields the verified
claims touch. -/
structure Folder where
  id : Int
  name : List Char
  parentId : Option Int
  starred : Bool
deriving DecidableEq, Repr

/-- The template entity, `models.Template`, restricted to the fields the
verified claims touch. -/
structure Template where
  id : Int
  name : List Char
deriving DecidableEq, Repr

/-- The message produced by the `tea.ExecProcess` callback
(src/internal/tui/app.go lines 870-877); `err` records whether the process
exit carried an error.  The struct literal in app.go sets TempFile, NoteID and
Err, the authoritative shape of the message. -/
structure EditorFinishedMsg where
  tempFile : List Char
  noteId : Int
  err : Bool
deriving DecidableEq, Repr

/-- The fragment of the `App` state that `handleEditorFinished` reads and
writes: the note being edited, the recorded temp-file path (empty when no
editor session is active), and the status-bar message. -/
structure AppEditor where
  currentNote : Option Note
  editingTempFile : List Char
  statusMessage : List Char
deriving DecidableEq, Repr

/-- What `handleEditorFinished` did with the editor session, for stating
properties about which protocol step was reached. -/
inductive EditorStep
  | discardedEdit
  | noSession
  | readFailed
  | appliedEdit (title content : List Char)
deriving DecidableEq, Repr

/-- Status text set on the editor-error path of `handleEditorFinished`. -/
def editorFailedText : List Char := "Editor failed".data

/-- Status text set when reading the edited content fails. -/
def readErrorText : List Char := "Error: read temp file".data

/-- `(*App).handleEditorFinished` (src/internal/tui/app.go lines 239-271).
When the message carries a process error the handler sets a transient status
message, clears the recorded temp path and returns without reading the
handoff file; when no current note or temp path is set it returns unchanged;
otherwise it runs `ReadEditedContent` on the file, surfacing a read failure as
a status message, and on success applies the parsed title and content to the
current note (the subsequent `UpdateNote` persistence command is issued with
exactly that note). -/
def handleEditorFinished (a : AppEditor) (msg : EditorFinishedMsg)
    (file : ReadOutcome) : AppEditor × EditorStep :=
  if msg.err then
    ({ a with statusMessage := editorFailedText, editingTempFile := [] },
     .discardedEdit)
  else
    match a.currentNote with
    | none => (a, .noSession)
    | some note =>
      if a.editingTempFile = [] then (a, .noSession)
      else
        match readEditedContent file note.title with
        | none =>
          ({ a with statusMessage := readErrorText, editingTempFile := [] },
           .readFailed)
        | some (newTitle, newContent) =>
          ({ a with
              currentNote := some { note with title := newTitle, content := newContent },
              editingTempFile := [] },
           .appliedEdit newTitle newContent)

/-- Errors of the persistence layer: `notFound` is `repository.ErrNotFound`
(returned when an id matches no row), `validationFailed` models the error
returned by `Note.Validate` on an empty title, and `notTodo` the ad hoc
"note is not a todo" error of `NoteService.ToggleTodo`. -/
inductive RepoError
  | notFound
  | validationFailed
  | notTodo
deriving DecidableEq, Repr

/-- `Note.Validate` (src/internal/models/note.go lines 37-45): an empty title
is rejected; an out-of-range priority is clamped to none (the Go method
mutates the receiver and returns nil, so the clamped note is what the caller
goes on to write). -/
def validateNote (n : Note) : Except RepoError Note :=
  if n.title = [] then .error .validationFailed
  else if n.priority < 0 || n.priority > 3 then .ok { n with priority := 0 }
  else .ok n

/-- The priority clamp of `Note.Validate` in isolation: the note the caller
goes on to write after a successful validation. -/
def validClamp (n : Note) : Note :=
  if n.priority < 0 || n.priority > 3 then { n with priority := 0 } else n

/-- The notes table, keyed by `id` (`INTEGER PRIMARY KEY`). -/
def NoteStore := List Note

/-- `NoteRepository.GetByID` (src/internal/repository/interfaces.go):
`SELECT ... FROM notes WHERE id = ?`, `ErrNotFound` when no row matches. -/
def getNoteByID (st : NoteStore) (id : Int) : Except RepoError Note :=
  match List.find? (fun m => m.id == id) st with
  | none => .error .notFound
  | some n => .ok n

/-- `NoteRepository.Update` (src/internal/repository/interfaces.go lines
166-207): validate, then `UPDATE notes SET ... WHERE id = ?`; zero affected
rows yield `ErrNotFound` and the store is unchanged on any error. -/
def repoUpdateNote (st : NoteStore) (n : Note) : Except RepoError NoteStore :=
  match validateNote n with
  | .error e => .error e
  | .ok n' =>
    if st.any (fun m => m.id == n'.id) then
      .ok (st.map (fun m => if m.id == n'.id then n' else m))
    else .error .notFound

/-- `NoteService.ToggleStar` (src/internal/service/note_service.go lines
106-113): read the note, flip `Starred`, write it back through the
repository. -/
def toggleStar (st : NoteStore) (id : Int) : Except RepoError NoteStore :=
  match getNoteByID st id with
  | .error e => .error e
  | .ok n => repoUpdateNote st { n with starred := !n.starred }

/-- `NoteService.ToggleTodo` (src/internal/service/note_service.go lines
116-129): read the note, fail when it is not a todo, otherwise flip `IsDone`
and write it back. -/
def toggleTodo (st : NoteStore) (id : Int) : Except RepoError NoteStore :=
  match getNoteByID st id with
  | .error e => .error e
  | .ok n =>
    if !n.isTodo then .error .notTodo
    else repoUpdateNote st { n with isDone := !n.isDone }

/-- `NoteService.SetPriority` (src/internal/service/note_service.go lines
132-140): read the note, overwrite its priority, write it back. -/
def setPriority (st : NoteStore) (id : Int) (p : Int) : Except RepoError NoteStore :=
  match getNoteByID st id with
  | .error e => .error e
  | .ok n => repoUpdateNote st { n with priority := p }

/-- Go's `%` operator on int: truncated-division remainder. -/
def goMod (a b : Int) : Int := Int.tmod a b

/-- `commands.CyclePriority` (src/internal/tui/commands/commands.go lines
221-232) as dispatched from `handleNoteListInput` (app.go line 639) with the
selected note's current priority: `newPriority := (currentPriority + 1) %
constants.PriorityMax` with `PriorityMax = 4`, then `NoteService.SetPriority`.
The store is unchanged when the service returns an error. -/
def runCyclePriority (st : NoteStore) (id : Int) : NoteStore :=
  match getNoteByID st id with
  | .error _ => st
  | .ok n =>
    match setPriority st id (goMod (n.priority + 1) 4) with
    | .ok st' => st'
    | .error _ => st

/-- One user-level toggle-star action: the store is unchanged when the
service returns an error (the TUI only shows a status message). -/
def runToggleStar (st : NoteStore) (id : Int) : NoteStore :=
  match toggleStar st id with
  | .ok st' => st'
  | .error _ => st

/-- One user-level toggle-todo action: the store is unchanged when the
service returns an error. -/
def runToggleTodo (st : NoteStore) (id : Int) : NoteStore :=
  match toggleTodo st id with
  | .ok st' => st'
  | .error _ => st

/-- A row of the `notes_fts` full-text index (src/unnamed/part_007), an
external-content FTS5 table over title, content and tags with
`content_rowid = id`. -/
structure FtsRow where
  rowid : Int
  title : List Char
  content : List Char
  tags : List Char
deriving DecidableEq, Repr

/-- The database state the search claims range over: the `notes` base table
and the `notes_fts` index kept in sync by the `notes_ai`/`notes_ad`/`notes_au`
triggers. -/
structure DB where
  notes : List Note
  fts : List FtsRow
deriving DecidableEq, Repr

/-- `NoteRepository.Delete` (src/internal/repository/interfaces.go lines
210-227) together with the `notes_ad` trigger (src/unnamed/part_007): `DELETE
FROM notes WHERE id = ?` fires the trigger deleting the same rowid from
`notes_fts` inside the same statement; zero affected rows yield
`ErrNotFound`. -/
def deleteNote (db : DB) (id : Int) : Except RepoError DB :=
  if db.notes.any (fun n => n.id == id) then
    .ok ⟨db.notes.filter (fun n => !(n.id == id)),
         db.fts.filter (fun e => !(e.rowid == id))⟩
  else .error .notFound

/-- The filter descriptor of `NoteRepository.List`, `models.ListOptions`
restricted to the filtering fields; the `ORDER BY` clause only permutes the
result and is omitted because every verified property is invariant under
reordering. -/
structure ListOptions where
  folderId : Option Int
  isTodo : Option Bool
  isDone : Option Bool
  starred : Option Bool
  priority : Option Int
  limit : Nat
  offset : Nat
deriving DecidableEq, Repr

/-- Conjunction of the WHERE conditions `NoteRepository.List` builds: each
specified field constrains equality, unspecified fields are unconstrained. -/
def matchesOpts (opts : ListOptions) (n : Note) : Bool :=
  (match opts.folderId with
   | none => true
   | some f => n.folderId == some f) &&
  (match opts.isTodo with
   | none => true
   | some b => n.isTodo == b) &&
  (match opts.isDone with
   | none => true
   | some b => n.isDone == b) &&
  (match opts.starred with
   | none => true
   | some b => n.starred == b) &&
  (match opts.priority with
   | none => true
   | some p => n.priority == p)

/-- `NoteRepository.List` (src/internal/repository/interfaces.go lines
229 ff.): filter the notes table by the options, then apply OFFSET and LIMIT
(a limit of 0 means no LIMIT clause is emitted). -/
def listNotes (db : DB) (opts : ListOptions) : List Note :=
  let rows := db.notes.filter (matchesOpts opts)
  let rows := rows.drop opts.offset
  if opts.limit = 0 then rows else rows.take opts.limit

/-- `SearchRepository.Search` (src/internal/repository/folder_repo.go lines
292-346): `SELECT n.* FROM notes_fts JOIN notes n ON notes_fts.rowid = n.id
WHERE notes_fts MATCH ?`.  The MATCH predicate itself is implemented by the
SQLite FTS5 library, outside this repository, so it is passed in as the
parameter `m`; the verified properties hold for every such predicate. -/
def searchNotes (m : List Char → FtsRow → Bool) (db : DB) (q : List Char) :
    List Note :=
  (db.fts.filter (m q)).filterMap
    (fun e => List.find? (fun n => n.id == e.rowid) db.notes)

/-- Sidebar filter constant `constants.FilterAll`. -/
def filterAll : List Char := "all".data

/-- Sidebar filter constant `constants.FilterTodos`. -/
def filterTodos : List Char := "todos".data

/-- Sidebar filter constant `constants.FilterStarred`. -/
def filterStarred : List Char := "starred".data

/-- `messages.DataLoadedMsg` as consumed by `handleDataLoaded` (app.go lines
181-223): optional folder, note and template collections (a Go nil slice is
`none`) plus the starred folders shown in the note list under the starred
filter. -/
structure DataLoadedMsg where
  folders : Option (List Folder)
  notes : Option (List Note)
  templates : Option (List Template)
  starredFolders : List Folder
deriving DecidableEq, Repr

/-- The cursor clamp of `NoteList.SetNotes` (src/unnamed/part_005 lines
507-515): `if cursor >= len(notes) { cursor = len(notes) - 1 }; if cursor < 0
{ cursor = 0 }`.  The cursor is a Go int kept non-negative by every mutation,
so it is modelled as `Nat`; for an empty list the Go code lands on -1 and then
0, which `Nat` subtraction reproduces. -/
def setNotesClampCursor (cursor : Nat) (notes : List Note) : Nat :=
  if cursor ≥ notes.length then notes.length - 1 else cursor

/-- The fragment of the `App` state driving the verified snapshot and
selection claims: the in-memory snapshot collections, the current filter and
folder, and the note-list component's list and cursor. -/
structure AppState where
  folders : List Folder
  notes : List Note
  templates : List Template
  currentFilter : List Char
  currentFolder : Option Folder
  noteListNotes : List Note
  noteListCursor : Nat
  noteListFolders : List Folder
deriving DecidableEq, Repr

/-- `NoteList.SetNotes` applied to the app state: store the list and clamp
the cursor. -/
def noteListSetNotes (s : AppState) (ns : List Note) : AppState :=
  { s with noteListNotes := ns,
           noteListCursor := setNotesClampCursor s.noteListCursor ns }

/-- `(*App).handleDataLoaded` (src/internal/tui/app.go lines 181-223): the
folders snapshot is replaced only when the event includes folders; the notes
snapshot is always replaced, a nil collection standing for the empty list,
and under the starred filter the incoming notes are narrowed to the starred
ones; the note list receives the new notes (clamping its cursor); the
templates snapshot is replaced only when included; the note list's folder
rows are the event's starred folders under the starred filter and empty
otherwise.  The preview refresh and sidebar rendering are cosmetic and not
modelled. -/
def handleDataLoaded (s : AppState) (msg : DataLoadedMsg) : AppState :=
  let s1 :=
    match msg.folders with
    | some fs => { s with folders := fs }
    | none => s
  let ns0 := msg.notes.getD []
  let ns :=
    if s1.currentFilter = filterStarred then ns0.filter (fun n => n.starred)
    else ns0
  let s2 := { s1 with notes := ns }
  let s3 := noteListSetNotes s2 s2.notes
  let s4 :=
    match msg.templates with
    | some ts => { s3 with templates := ts }
    | none => s3
  { s4 with
      noteListFolders :=
        if s4.currentFilter = filterStarred then msg.starredFolders else [] }

/-- What the sidebar reports as selected after a key press, via
`SelectedSpecial` and `SelectedFolder` (a sidebar row is either one of the
special pseudo-folders or a folder, never both). -/
inductive SidebarSelection
  | special (f : List Char)
  | folder (f : Folder)
  | nothing
deriving DecidableEq, Repr

/-- The filter-change logic of `(*App).handleSidebarInput`
(src/internal/tui/app.go lines 534-576): a selected special pseudo-folder
different from the current filter installs that filter, clears the current
folder and issues a reload; a selected folder different from the current one
installs it, clears the filter, empties the note list (resetting its cursor
through `SetNotes(nil)`) and issues a reload; otherwise nothing changes.  The
returned flag records whether a reload command was issued. -/
def handleSidebarSelect (s : AppState) (sel : SidebarSelection) :
    AppState × Bool :=
  match sel with
  | .special f =>
    if f ≠ [] ∧ f ≠ s.currentFilter then
      ({ s with currentFilter := f, currentFolder := none }, true)
    else (s, false)
  | .folder f =>
    if s.currentFolder.all (fun g => f.id ≠ g.id) then
      let s' := { s with currentFolder := some f, currentFilter := [],
                         notes := [] }
      (noteListSetNotes s' [], true)
    else (s, false)
  | .nothing => (s, false)

/-- A filter change followed by the resulting reload: `commands.ReloadNotes`
(src/internal/tui/commands/commands.go lines 92-119) queries the notes for
the new filter and delivers them as `DataLoadedMsg{Notes: notes}` (no
folders, no templates), which `handleDataLoaded` then applies.  `loaded` is
the query result. -/
def filterChangeThenLoad (s : AppState) (sel : SidebarSelection)
    (loaded : List Note) : AppState :=
  let (s1, issued) := handleSidebarSelect s sel
  if issued then handleDataLoaded s1 ⟨none, some loaded, none, []⟩ else s1

/-- The key classes the dialog component distinguishes
(src/unnamed/part_004 `keys.DefaultKeyMap`): escape, enter, the four arrows,
and any other key. -/
inductive Key
  | escape
  | enter
  | left
  | right
  | up
  | down
  | other
deriving DecidableEq, Repr

/-- `components.DialogType` (src/unnamed/part_006): confirm, input and select
dialogs. -/
inductive DialogKind
  | dialogConfirm
  | dialogInput
  | dialogSelect
deriving DecidableEq, Repr

/-- The `components.Dialog` state (src/unnamed/part_006): kind, texts,
options, cursor, visibility, confirmation flag and the text-input value.  The
cursor is a Go int that only ever moves under guards keeping it non-negative,
so it is modelled as `Nat`. -/
structure Dialog where
  dialogType : DialogKind
  title : List Char
  message : List Char
  options : List (List Char)
  cursor : Nat
  visible : Bool
  confirmed : Bool
  inputText : List Char
deriving DecidableEq, Repr

/-- Option label rendered for confirmation. -/
def yesText : List Char := "Yes".data

/-- Option label rendered for declining. -/
def noText : List Char := "No".data

/-- `Dialog.ShowConfirm` (src/unnamed/part_006 lines 49-57): a confirm dialog
with options Yes/No, the cursor on index 1 ("No"), visible and
unconfirmed. -/
def showConfirm (d : Dialog) (title message : List Char) : Dialog :=
  { d with dialogType := .dialogConfirm, title := title, message := message,
           options := [yesText, noText], cursor := 1, visible := true,
           confirmed := false }

/-- `Dialog.Hide` (src/unnamed/part_006): make the dialog invisible. -/
def dialogHide (d : Dialog) : Dialog :=
  { d with visible := false }

/-- `Dialog.Update` (src/unnamed/part_006 lines 123-174) on a key press: a
hidden dialog ignores input; escape hides; enter confirms a confirm dialog
exactly when the cursor is on index 0 ("Yes") and always confirms the other
kinds, then hides; left/right move the cursor of a confirm dialog within the
options; up/down move the cursor of a select dialog.  The trailing text-input
update only touches `inputText`, which no key in `Key` changes. -/
def dialogUpdate (d : Dialog) (k : Key) : Dialog :=
  if !d.visible then d
  else
    match k with
    | .escape => dialogHide d
    | .enter =>
      let d' :=
        if d.dialogType = .dialogConfirm then
          { d with confirmed := d.cursor = 0 }
        else { d with confirmed := true }
      dialogHide d'
    | .left =>
      if d.dialogType = .dialogConfirm ∧ d.cursor > 0 then
        { d with cursor := d.cursor - 1 }
      else d
    | .right =>
      if d.dialogType = .dialogConfirm ∧ d.cursor < d.options.length - 1 then
        { d with cursor := d.cursor + 1 }
      else d
    | .up =>
      if d.dialogType = .dialogSelect ∧ d.cursor > 0 then
        { d with cursor := d.cursor - 1 }
      else d
    | .down =>
      if d.dialogType = .dialogSelect ∧ d.cursor < d.options.length - 1 then
        { d with cursor := d.cursor + 1 }
      else d
    | .other => d

/-- Dialog-kind tag stored by the app, `constants.DialogTypeNewNote`. -/
def dialogTypeNewNote : List Char := "new_note".data

/-- Dialog-kind tag `constants.DialogTypeNewTodo`. -/
def dialogTypeNewTodo : List Char := "new_todo".data

/-- Dialog-kind tag `constants.DialogTypeDelete`. -/
def dialogTypeDelete : List Char := "delete".data

/-- Dialog-kind tag for creating a folder, as dispatched in
`handleDialogInput`. -/
def dialogTypeNewFolder : List Char := "new_folder".data

/-- Dialog-kind tag for deleting a folder, as dispatched in
`handleDialogInput`. -/
def dialogTypeDeleteFolder : List Char := "delete_folder".data

/-- The background command `handleDialogInput` dispatches once a dialog is
confirmed. -/
inductive DialogAction
  | createNote (title : List Char) (isTodo : Bool)
  | deleteNote (id : Int)
  | createFolder (name : List Char)
  | deleteFolder (id : Int)
deriving DecidableEq, Repr

/-- The fragment of the `App` state that `handleDialogInput` reads: the
dialog, the stored dialog-kind tag, the dialog-visible flag, and the current
note and folder the destructive actions target. -/
structure AppDialog where
  dialog : Dialog
  dialogTypeTag : List Char
  showDialog : Bool
  currentNote : Option Note
  currentFolder : Option Folder
deriving DecidableEq, Repr

/-- `(*App).handleDialogInput` (src/internal/tui/app.go lines 422-477): the
key goes to the dialog first; while the dialog stays visible nothing else
happens; an unconfirmed close clears the dialog flag and dispatches nothing;
a confirmed close dispatches the command selected by the stored dialog-kind
tag (creating a note, todo or folder from the input value, or deleting the
current note or folder when one is set). -/
def handleDialogInput (a : AppDialog) (k : Key) :
    AppDialog × Option DialogAction :=
  let d := dialogUpdate a.dialog k
  let a1 := { a with dialog := d }
  if d.visible then (a1, none)
  else if !d.confirmed then ({ a1 with showDialog := false }, none)
  else
    let a2 := { a1 with showDialog := false }
    if a.dialogTypeTag = dialogTypeNewNote then
      (a2, some (.createNote d.inputText false))
    else if a.dialogTypeTag = dialogTypeNewTodo then
      (a2, some (.createNote d.inputText true))
    else if a.dialogTypeTag = dialogTypeDelete then
      match a.currentNote with
      | some n => (a2, some (.deleteNote n.id))
      | none => (a2, none)
    else if a.dialogTypeTag = dialogTypeNewFolder then
      (a2, some (.createFolder d.inputText))
    else if a.dialogTypeTag = dialogTypeDeleteFolder then
      match a.currentFolder with
      | some f => (a2, some (.deleteFolder f.id))
      | none => (a2, none)
    else (a2, none)

/-! Helper lemmas about the handoff-file split. -/

theorem breakNewline_append (l r : List Char) (h : ('\n' : Char) ∉ l) :
    breakNewline (l ++ '\n' :: r) = some (l, r) := by
  induction l with
  | nil => simp [breakNewline]
  | cons c cs ih =>
    have hc : c ≠ '\n' := fun e => h (e ▸ List.mem_cons_self c cs)
    have hcs : ('\n' : Char) ∉ cs := fun hm => h (List.mem_cons_of_mem c hm)
    simp only [List.cons_append, breakNewline, if_neg hc, List.append_eq, ih hcs]

theorem splitN3_three (l0 l1 r : List Char) (h0 : ('\n' : Char) ∉ l0)
    (h1 : ('\n' : Char) ∉ l1) :
    splitN3 (l0 ++ '\n' :: (l1 ++ '\n' :: r)) = [l0, l1, r] := by
  simp only [splitN3, breakNewline_append _ _ h0, breakNewline_append _ _ h1]

theorem trimPrefixHashSpace_of_no_marker (s : List Char)
    (h : hasTitleMarker s = false) : trimPrefixHashSpace s = s := by
  simp [trimPrefixHashSpace, h]

/-- C3, counterexample: for the handoff file "Hello\n\nWorld" (first line
lacks the title marker) and original title "Orig", the parse yields title
"Hello" and body "World" — not the original title with the whole file as
body, as the claim states. -/
theorem c3_no_marker_counterexample :
    parseEditedContent "Hello\n\nWorld".data "Orig".data
        = ("Hello".data, "World".data) ∧
    parseEditedContent "Hello\n\nWorld".data "Orig".data
        ≠ ("Orig".data, "Hello\n\nWorld".data) := by
  constructor
  · decide
  · decide

/-- C3 (amended): for a handoff file of at least three parts whose first line
does not begin with the title marker, the trimmed first line becomes the new
title — the original title is kept only when the first line trims to empty —
and the body is the trimmed content after the second newline, never including
the first line. -/
theorem c3_no_marker_parse (l0 l1 r orig : List Char)
    (h0 : ('\n' : Char) ∉ l0) (h1 : ('\n' : Char) ∉ l1)
    (hm : hasTitleMarker l0 = false) :
    parseEditedContent (l0 ++ '\n' :: (l1 ++ '\n' :: r)) orig
      = (if trimSpace l0 = [] then orig else trimSpace l0, trimSpace r) := by
  simp only [parseEditedContent, splitN3_three _ _ _ h0 h1,
    trimPrefixHashSpace_of_no_marker _ hm]

/-- Witness for `c3_no_marker_parse` at the file "Hello\n\nWorld" with
original title "Orig". -/
theorem c3_no_marker_parse_witness :
    (('\n' : Char) ∉ "Hello".data) ∧ (('\n' : Char) ∉ ([] : List Char)) ∧
    hasTitleMarker "Hello".data = false ∧
    parseEditedContent ("Hello".data ++ '\n' :: (([] : List Char) ++ '\n' :: "World".data)) "Orig".data
      = (if trimSpace "Hello".data = [] then "Orig".data else trimSpace "Hello".data,
         trimSpace "World".data) :=
  ⟨by decide, by decide, by decide,
   c3_no_marker_parse "Hello".data [] "World".data "Orig".data
     (by decide) (by decide) (by decide)⟩

/-- C4, counterexample: a body with a trailing space does not survive the
prepare/reconcile round trip unmodified — the parse trims it. -/
theorem c4_roundtrip_counterexample :
    parseEditedContent (prepareEditContent "T".data "B ".data) "T".data
      ≠ ("T".data, "B ".data) := by
  decide

/-- C4 (amended): the prepare/reconcile round trip is the identity for every
title that contains no newline and is fixed by whitespace trimming, and every
body fixed by whitespace trimming (bodies may contain newlines); titles or
bodies with leading or trailing whitespace, or titles with newlines, are not
restored verbatim. -/
theorem c4_roundtrip_trimmed (T B : List Char)
    (hTn : ('\n' : Char) ∉ T) (hTt : trimSpace T = T) (hBt : trimSpace B = B) :
    parseEditedContent (prepareEditContent T B) T = (T, B) := by
  have h0 : ('\n' : Char) ∉ '#' :: ' ' :: T := by
    simp only [List.mem_cons]
    push_neg
    exact ⟨by decide, by decide, hTn⟩
  have hshape : prepareEditContent T B
      = ('#' :: ' ' :: T) ++ '\n' :: (([] : List Char) ++ '\n' :: B) := by
    simp [prepareEditContent]
  unfold parseEditedContent
  rw [hshape, splitN3_three _ _ _ h0 (by simp)]
  have hmark : trimPrefixHashSpace ('#' :: ' ' :: T) = T := by
    simp [trimPrefixHashSpace, hasTitleMarker]
  simp only [hmark, hBt, hTt]
  by_cases hT : T = []
  · simp [hT]
  · simp [hT]

/-- Witness for `c4_roundtrip_trimmed` at title "T" and the two-line body
"Body\nline". -/
theorem c4_roundtrip_trimmed_witness :
    (('\n' : Char) ∉ "T".data) ∧ trimSpace "T".data = "T".data ∧
    trimSpace "Body\nline".data = "Body\nline".data ∧
    parseEditedContent (prepareEditContent "T".data "Body\nline".data) "T".data
      = ("T".data, "Body\nline".data) :=
  ⟨by decide, by decide, by decide,
   c4_roundtrip_trimmed "T".data "Body\nline".data (by decide) (by decide) (by decide)⟩

/-- C1: at the failing input — an editor session on note 1 whose process exit
reports an error while the handoff file holds saved content — the engine does
not attempt step 4 of the protocol: `handleEditorFinished` returns after
setting a transient status message, never reads or parses the handoff file,
and leaves the note unchanged, discarding the edit.  This contradicts both
the claim and the comment in the `tea.ExecProcess` callback (app.go line 872)
that changes should still be processed after an erroring exit. -/
theorem c1_editor_error_discards_edit :
    (handleEditorFinished
        ⟨some ⟨1, "T".data, "B".data, none, none, false, false, 0, [], false⟩,
         "/tmp/kiroku-1.md".data, []⟩
        ⟨"/tmp/kiroku-1.md".data, 1, true⟩
        (.ok "# New\n\nSaved".data)).2 = .discardedEdit ∧
    (handleEditorFinished
        ⟨some ⟨1, "T".data, "B".data, none, none, false, false, 0, [], false⟩,
         "/tmp/kiroku-1.md".data, []⟩
        ⟨"/tmp/kiroku-1.md".data, 1, true⟩
        (.ok "# New\n\nSaved".data)).1.currentNote
      = some ⟨1, "T".data, "B".data, none, none, false, false, 0, [], false⟩ ∧
    (handleEditorFinished
        ⟨some ⟨1, "T".data, "B".data, none, none, false, false, 0, [], false⟩,
         "/tmp/kiroku-1.md".data, []⟩
        ⟨"/tmp/kiroku-1.md".data, 1, true⟩
        (.ok "# New\n\nSaved".data)).1.statusMessage = editorFailedText := by
  refine ⟨rfl, rfl, rfl⟩

/-- C2, counterexample: when the handoff file was written successfully and
the editor process exits with an error, the temporary file is left behind —
`handleEditorFinished` returns before `ReadEditedContent`, the only place
that removes it. -/
theorem c2_temp_file_counterexample :
    tempFileLeftBehind .ok .failed true = true := rfl

/-- C2 (amended): the temporary handoff file is deleted on every path that
reaches `ReadEditedContent` (regardless of read or parse outcome) and on the
write-failure path inside `PrepareEdit` (and none exists when creation
fails); but it is left behind exactly when the file was written and either
the editor process exits with an error (including launch failure) or no
current note and temp path survive to the completion handler. -/
theorem c2_temp_file_cleanup_paths (prep : PrepareOutcome) (procExit : EditorExit)
    (sessionActive : Bool) :
    tempFileLeftBehind prep procExit sessionActive
      = (prep == PrepareOutcome.ok &&
         (procExit == EditorExit.failed || !sessionActive)) := by
  cases prep <;> cases procExit <;> cases sessionActive <;> rfl

/-- C5, counterexample: a "data loaded" event carrying only folders (a nil
notes collection) does not leave the notes snapshot untouched — the handler
unconditionally replaces it, clearing it to empty. -/
theorem c5_folders_only_event_clears_notes :
    (handleDataLoaded
        ⟨[], [⟨1, "N".data, [], none, none, false, false, 0, [], false⟩], [],
         filterAll, none,
         [⟨1, "N".data, [], none, none, false, false, 0, [], false⟩], 0, []⟩
        ⟨some [⟨2, "F".data, none, false⟩], none, none, []⟩).notes
      ≠ [⟨1, "N".data, [], none, none, false, false, 0, [], false⟩] := by
  decide

/-- C5 (amended): a "data loaded" event replaces the folders and templates
snapshots only when those collections are included, but always replaces the
notes snapshot — an omitted (nil) notes collection clears it to empty, and
under the starred filter the incoming notes are narrowed to the starred
ones — while the current filter and folder are untouched. -/
theorem c5_data_loaded_replacement (s : AppState) (msg : DataLoadedMsg) :
    (handleDataLoaded s msg).folders = msg.folders.getD s.folders ∧
    (handleDataLoaded s msg).templates = msg.templates.getD s.templates ∧
    (handleDataLoaded s msg).notes =
      (if s.currentFilter = filterStarred
       then (msg.notes.getD []).filter (fun n => n.starred)
       else msg.notes.getD []) ∧
    (handleDataLoaded s msg).currentFilter = s.currentFilter ∧
    (handleDataLoaded s msg).currentFolder = s.currentFolder := by
  cases hf : msg.folders <;> cases ht : msg.templates <;>
    simp [handleDataLoaded, noteListSetNotes, hf, ht]

/-- C6, counterexample: with the item-list cursor on index 1, selecting the
special pseudo-folder "all notes" (a filter change away from the todos
filter) and applying the resulting reload of two notes leaves the selection
on index 1 — the list does not reset to its first element. -/
theorem c6_special_filter_keeps_cursor :
    (filterChangeThenLoad
        ⟨[], [], [], filterTodos, none,
         [⟨1, "A".data, [], none, none, false, false, 0, [], false⟩,
          ⟨2, "B".data, [], none, none, false, false, 0, [], false⟩], 1, []⟩
        (.special filterAll)
        [⟨1, "A".data, [], none, none, false, false, 0, [], false⟩,
         ⟨2, "B".data, [], none, none, false, false, 0, [], false⟩]).noteListCursor
      ≠ 0 := by
  decide

/-- C6 (amended): selecting a folder resets the item list to its first
element after the resulting reload (the handler empties the list, clamping
the cursor to 0, before reloading); selecting a special pseudo-folder
retains the previous selection index, merely clamping it into the bounds of
the reloaded list, so the selection is the first element only when the
previous index was 0 or falls outside the new list. -/
theorem c6_filter_change_selection (s : AppState) (f : Folder) (g : List Char)
    (loaded : List Note)
    (hfold : s.currentFolder.all (fun h => f.id ≠ h.id) = true)
    (hg1 : g ≠ []) (hg2 : g ≠ s.currentFilter) :
    (filterChangeThenLoad s (.folder f) loaded).noteListCursor = 0 ∧
    (filterChangeThenLoad s (.special g) loaded).noteListCursor =
      setNotesClampCursor s.noteListCursor
        (if g = filterStarred then loaded.filter (fun n => n.starred)
         else loaded) := by
  constructor
  · simp only [filterChangeThenLoad, handleSidebarSelect, hfold, if_true,
      handleDataLoaded, noteListSetNotes, setNotesClampCursor]
    simp only [filterStarred]
    simp
    intro h
    subst h
    rfl
  · simp only [filterChangeThenLoad, handleSidebarSelect]
    simp [hg1, hg2, handleDataLoaded, noteListSetNotes]

/-- Witness for `c6_filter_change_selection`: a state on the todos filter
with cursor 1, a folder with a fresh id, the special filter "all", and a
two-note reload. -/
theorem c6_filter_change_selection_witness :
    ((⟨[], [], [], filterTodos, none, [], 1, []⟩ : AppState).currentFolder.all
        (fun h => (⟨7, "W".data, none, false⟩ : Folder).id ≠ h.id) = true) ∧
    filterAll ≠ [] ∧ filterAll ≠ filterTodos ∧
    ((filterChangeThenLoad ⟨[], [], [], filterTodos, none, [], 1, []⟩
        (.folder ⟨7, "W".data, none, false⟩) []).noteListCursor = 0 ∧
     (filterChangeThenLoad ⟨[], [], [], filterTodos, none, [], 1, []⟩
        (.special filterAll) []).noteListCursor =
       setNotesClampCursor 1
         (if filterAll = filterStarred
          then List.filter (fun n => n.starred) []
          else [])) :=
  ⟨by decide, by decide, by decide,
   c6_filter_change_selection ⟨[], [], [], filterTodos, none, [], 1, []⟩
     ⟨7, "W".data, none, false⟩ filterAll [] (by decide) (by decide) (by decide)⟩

/-! Helper lemmas about the note store and the database model. -/

theorem validateNote_eq (n : Note) :
    validateNote n
      = if n.title = [] then .error .validationFailed
        else .ok (validClamp n) := by
  unfold validateNote validClamp
  by_cases h : n.title = []
  · simp [h]
  · simp only [h, if_false, ite_false]
    split <;> rfl

theorem validClamp_id (n : Note) : (validClamp n).id = n.id := by
  unfold validClamp
  split <;> rfl

theorem validClamp_title (n : Note) : (validClamp n).title = n.title := by
  unfold validClamp
  split <;> rfl

theorem validClamp_starred (n : Note) : (validClamp n).starred = n.starred := by
  unfold validClamp
  split <;> rfl

theorem validClamp_isTodo (n : Note) : (validClamp n).isTodo = n.isTodo := by
  unfold validClamp
  split <;> rfl

theorem validClamp_isDone (n : Note) : (validClamp n).isDone = n.isDone := by
  unfold validClamp
  split <;> rfl

theorem validClamp_of_inrange (n : Note) (h0 : 0 ≤ n.priority)
    (h3 : n.priority ≤ 3) : validClamp n = n := by
  unfold validClamp
  have hc1 : ¬(n.priority < 0) := by omega
  have hc2 : ¬(n.priority > 3) := by omega
  simp [hc1, hc2]

theorem find?_map_update (st : NoteStore) (id : Int) (x : Note)
    (hx : x.id = id) :
    List.find? (fun m => m.id == id)
        (st.map (fun m => if m.id == id then x else m))
      = (List.find? (fun m => m.id == id) st).map (fun _ => x) := by
  induction st with
  | nil => rfl
  | cons a l ih =>
    by_cases ha : (a.id == id) = true
    · rw [List.map_cons, if_pos ha, List.find?_cons, List.find?_cons, ha]
      have hpx : (x.id == id) = true := by simp [hx]
      rw [hpx]
      rfl
    · have ha' : (a.id == id) = false := by
        simpa using ha
      rw [List.map_cons, if_neg ha, List.find?_cons, List.find?_cons, ha', ih]

theorem any_of_find? {st : NoteStore} {id : Int} {n : Note}
    (h : List.find? (fun m => m.id == id) st = some n) :
    st.any (fun m => m.id == id) = true := by
  have hp := List.find?_some h
  exact List.any_eq_true.mpr ⟨n, List.mem_of_find?_eq_some h, hp⟩

theorem repoUpdateNote_found (st : NoteStore) (id : Int) (x : Note)
    (hx : x.id = id) (ht : x.title ≠ [])
    (hfound : st.any (fun m => m.id == id) = true) :
    repoUpdateNote st x
      = .ok (st.map (fun m => if m.id == id then validClamp x else m)) := by
  unfold repoUpdateNote
  rw [validateNote_eq]
  simp only [ht, if_false, ite_false]
  have hcid : (validClamp x).id = id := by rw [validClamp_id, hx]
  simp only [hcid, hfound, if_true, ite_true]

theorem mem_notes_of_mem_listNotes {db : DB} {opts : ListOptions} {n : Note}
    (h : n ∈ listNotes db opts) : n ∈ db.notes := by
  simp only [listNotes] at h
  split at h
  · exact List.mem_of_mem_filter (List.mem_of_mem_drop h)
  · exact List.mem_of_mem_filter (List.mem_of_mem_drop (List.mem_of_mem_take h))

/-- C7: once `deleteNote` succeeds, the deleted id appears in no `listNotes`
result for any filter options and in no `search` result for any query and
any MATCH predicate: the `notes_ad` trigger retracts the full-text row in
the same statement that deletes the base row, and the search query joins
the index back to the base table. -/
theorem c7_delete_removes_from_list_and_search (db db' : DB) (id : Int)
    (opts : ListOptions) (m : List Char → FtsRow → Bool) (q : List Char)
    (h : deleteNote db id = .ok db') :
    ((listNotes db' opts).all (fun n => !(n.id == id))) = true ∧
    ((searchNotes m db' q).all (fun n => !(n.id == id))) = true := by
  unfold deleteNote at h
  split at h
  case isFalse => exact absurd h (by simp)
  case isTrue hany =>
    have hdb : db' = ⟨db.notes.filter (fun n => !(n.id == id)),
                      db.fts.filter (fun e => !(e.rowid == id))⟩ := by
      cases h
      rfl
    subst hdb
    constructor
    · apply List.all_eq_true.mpr
      intro n hn
      have hmem : n ∈ db.notes.filter (fun n => !(n.id == id)) :=
        mem_notes_of_mem_listNotes hn
      exact (List.mem_filter.mp hmem).2
    · apply List.all_eq_true.mpr
      intro n hn
      obtain ⟨e, _, hfind⟩ := List.mem_filterMap.mp hn
      have hmem := List.mem_of_find?_eq_some hfind
      exact (List.mem_filter.mp hmem).2

/-- Witness for `c7_delete_removes_from_list_and_search`: deleting the only
note of a one-note database. -/
theorem c7_delete_removes_witness :
    (deleteNote
        ⟨[⟨1, "T".data, "B".data, none, none, false, false, 0, "tag".data, false⟩],
         [⟨1, "T".data, "B".data, "tag".data⟩]⟩ 1
      = .ok ⟨[], []⟩) ∧
    (((listNotes ⟨[], []⟩ ⟨none, none, none, none, none, 0, 0⟩).all
        (fun n => !(n.id == 1))) = true ∧
     ((searchNotes (fun _ _ => true) ⟨[], []⟩ "T".data).all
        (fun n => !(n.id == 1))) = true) :=
  ⟨by rfl,
   c7_delete_removes_from_list_and_search
     ⟨[⟨1, "T".data, "B".data, none, none, false, false, 0, "tag".data, false⟩],
      [⟨1, "T".data, "B".data, "tag".data⟩]⟩
     ⟨[], []⟩ 1 ⟨none, none, none, none, none, 0, 0⟩ (fun _ _ => true) "T".data
     (by rfl)⟩

/-! Step lemmas for the toggle services. -/

theorem toggleStar_not_found (st : NoteStore) (id : Int)
    (hfind : List.find? (fun m => m.id == id) st = none) :
    toggleStar st id = .error .notFound := by
  unfold toggleStar getNoteByID
  rw [hfind]

theorem toggleStar_empty_title (st : NoteStore) (id : Int) (n : Note)
    (hfind : List.find? (fun m => m.id == id) st = some n)
    (ht : n.title = []) :
    toggleStar st id = .error .validationFailed := by
  unfold toggleStar getNoteByID
  rw [hfind]
  show repoUpdateNote st { n with starred := !n.starred } = _
  unfold repoUpdateNote
  rw [validateNote_eq]
  simp [ht]

theorem toggleStar_found (st : NoteStore) (id : Int) (n : Note)
    (hfind : List.find? (fun m => m.id == id) st = some n)
    (ht : n.title ≠ []) :
    toggleStar st id
      = .ok (st.map (fun m => if m.id == id then
          validClamp { n with starred := !n.starred } else m)) := by
  have hnid : n.id = id := by
    simpa using List.find?_some hfind
  unfold toggleStar getNoteByID
  rw [hfind]
  show repoUpdateNote st { n with starred := !n.starred } = _
  exact repoUpdateNote_found st id _ hnid ht (any_of_find? hfind)

theorem toggleTodo_not_found (st : NoteStore) (id : Int)
    (hfind : List.find? (fun m => m.id == id) st = none) :
    toggleTodo st id = .error .notFound := by
  unfold toggleTodo getNoteByID
  rw [hfind]

theorem toggleTodo_not_todo (st : NoteStore) (id : Int) (n : Note)
    (hfind : List.find? (fun m => m.id == id) st = some n)
    (htodo : n.isTodo = false) :
    toggleTodo st id = .error .notTodo := by
  unfold toggleTodo getNoteByID
  rw [hfind]
  simp [htodo]

theorem toggleTodo_empty_title (st : NoteStore) (id : Int) (n : Note)
    (hfind : List.find? (fun m => m.id == id) st = some n)
    (htodo : n.isTodo = true) (ht : n.title = []) :
    toggleTodo st id = .error .validationFailed := by
  unfold toggleTodo getNoteByID
  rw [hfind]
  simp only [htodo, Bool.not_true, Bool.false_eq_true, if_false, ite_false]
  unfold repoUpdateNote
  rw [validateNote_eq]
  simp [ht]

theorem toggleTodo_found (st : NoteStore) (id : Int) (n : Note)
    (hfind : List.find? (fun m => m.id == id) st = some n)
    (htodo : n.isTodo = true) (ht : n.title ≠ []) :
    toggleTodo st id
      = .ok (st.map (fun m => if m.id == id then
          validClamp { n with isDone := !n.isDone } else m)) := by
  have hnid : n.id = id := by
    simpa using List.find?_some hfind
  unfold toggleTodo getNoteByID
  rw [hfind]
  simp only [htodo, Bool.not_true, Bool.false_eq_true, if_false, ite_false]
  exact repoUpdateNote_found st id _ hnid ht (any_of_find? hfind)

/-- C8: two successive `toggleStar` actions on the same note restore its
original starred value, and two successive `toggleTodo` actions restore its
original done value, whatever the store contents (a failing call leaves the
store unchanged, so a pair of failures also restores the original value);
moreover for an existing note that is not a todo, `toggleTodo` fails with
the "note is not a todo" error and the pair of actions leaves the store
untouched. -/
theorem c8_toggle_twice_restores (st : NoteStore) (id : Int) :
    ((getNoteByID (runToggleStar (runToggleStar st id) id) id).map
        (fun n => n.starred)
      = (getNoteByID st id).map (fun n => n.starred)) ∧
    ((getNoteByID (runToggleTodo (runToggleTodo st id) id) id).map
        (fun n => n.isDone)
      = (getNoteByID st id).map (fun n => n.isDone)) ∧
    (∀ n, getNoteByID st id = .ok n → n.isTodo = false →
      toggleTodo st id = .error .notTodo ∧
      runToggleTodo (runToggleTodo st id) id = st) := by
  refine ⟨?_, ?_, ?_⟩
  · cases hfind : List.find? (fun m => m.id == id) st with
    | none =>
      have h1 : runToggleStar st id = st := by
        unfold runToggleStar
        rw [toggleStar_not_found st id hfind]
      rw [h1, h1]
    | some n =>
      by_cases ht : n.title = []
      · have h1 : runToggleStar st id = st := by
          unfold runToggleStar
          rw [toggleStar_empty_title st id n hfind ht]
        rw [h1, h1]
      · have hnid : n.id = id := by
          simpa using List.find?_some hfind
        have hx1id : (validClamp { n with starred := !n.starred }).id = id := by
          rw [validClamp_id]; exact hnid
        have h1 : runToggleStar st id
            = st.map (fun m => if m.id == id then
                validClamp { n with starred := !n.starred } else m) := by
          unfold runToggleStar
          rw [toggleStar_found st id n hfind ht]
        have hfind1 : List.find? (fun m => m.id == id)
            (st.map (fun m => if m.id == id then
              validClamp { n with starred := !n.starred } else m))
            = some (validClamp { n with starred := !n.starred }) := by
          rw [find?_map_update st id _ hx1id, hfind]
          rfl
        have hx1t : (validClamp { n with starred := !n.starred }).title ≠ [] := by
          rw [validClamp_title]; exact ht
        have hx2id : (validClamp { validClamp { n with starred := !n.starred } with
            starred := !(validClamp { n with starred := !n.starred }).starred }).id = id := by
          rw [validClamp_id]; exact hx1id
        have h2 : runToggleStar (st.map (fun m => if m.id == id then
              validClamp { n with starred := !n.starred } else m)) id
            = (st.map (fun m => if m.id == id then
                validClamp { n with starred := !n.starred } else m)).map
              (fun m => if m.id == id then
                validClamp { validClamp { n with starred := !n.starred } with
                  starred := !(validClamp { n with starred := !n.starred }).starred }
                else m) := by
          unfold runToggleStar
          rw [toggleStar_found _ id _ hfind1 hx1t]
        have hfind2 : List.find? (fun m => m.id == id)
            ((st.map (fun m => if m.id == id then
                validClamp { n with starred := !n.starred } else m)).map
              (fun m => if m.id == id then
                validClamp { validClamp { n with starred := !n.starred } with
                  starred := !(validClamp { n with starred := !n.starred }).starred }
                else m))
            = some (validClamp { validClamp { n with starred := !n.starred } with
                starred := !(validClamp { n with starred := !n.starred }).starred }) := by
          rw [find?_map_update _ id _ hx2id, hfind1]
          rfl
        rw [h1, h2]
        unfold getNoteByID
        rw [hfind2, hfind]
        simp [Except.map, validClamp_starred]
  · cases hfind : List.find? (fun m => m.id == id) st with
    | none =>
      have h1 : runToggleTodo st id = st := by
        unfold runToggleTodo
        rw [toggleTodo_not_found st id hfind]
      rw [h1, h1]
    | some n =>
      by_cases htodo : n.isTodo = true
      · by_cases ht : n.title = []
        · have h1 : runToggleTodo st id = st := by
            unfold runToggleTodo
            rw [toggleTodo_empty_title st id n hfind htodo ht]
          rw [h1, h1]
        · have hnid : n.id = id := by
            simpa using List.find?_some hfind
          have hx1id : (validClamp { n with isDone := !n.isDone }).id = id := by
            rw [validClamp_id]; exact hnid
          have h1 : runToggleTodo st id
              = st.map (fun m => if m.id == id then
                  validClamp { n with isDone := !n.isDone } else m) := by
            unfold runToggleTodo
            rw [toggleTodo_found st id n hfind htodo ht]
          have hfind1 : List.find? (fun m => m.id == id)
              (st.map (fun m => if m.id == id then
                validClamp { n with isDone := !n.isDone } else m))
              = some (validClamp { n with isDone := !n.isDone }) := by
            rw [find?_map_update st id _ hx1id, hfind]
            rfl
          have hx1t : (validClamp { n with isDone := !n.isDone }).title ≠ [] := by
            rw [validClamp_title]; exact ht
          have hx1todo : (validClamp { n with isDone := !n.isDone }).isTodo = true := by
            rw [validClamp_isTodo]; exact htodo
          have hx2id : (validClamp { validClamp { n with isDone := !n.isDone } with
              isDone := !(validClamp { n with isDone := !n.isDone }).isDone }).id = id := by
            rw [validClamp_id]; exact hx1id
          have h2 : runToggleTodo (st.map (fun m => if m.id == id then
                validClamp { n with isDone := !n.isDone } else m)) id
              = (st.map (fun m => if m.id == id then
                  validClamp { n with isDone := !n.isDone } else m)).map
                (fun m => if m.id == id then
                  validClamp { validClamp { n with isDone := !n.isDone } with
                    isDone := !(validClamp { n with isDone := !n.isDone }).isDone }
                  else m) := by
            unfold runToggleTodo
            rw [toggleTodo_found _ id _ hfind1 hx1todo hx1t]
          have hfind2 : List.find? (fun m => m.id == id)
              ((st.map (fun m => if m.id == id then
                  validClamp { n with isDone := !n.isDone } else m)).map
                (fun m => if m.id == id then
                  validClamp { validClamp { n with isDone := !n.isDone } with
                    isDone := !(validClamp { n with isDone := !n.isDone }).isDone }
                  else m))
              = some (validClamp { validClamp { n with isDone := !n.isDone } with
                  isDone := !(validClamp { n with isDone := !n.isDone }).isDone }) := by
            rw [find?_map_update _ id _ hx2id, hfind1]
            rfl
          rw [h1, h2]
          unfold getNoteByID
          rw [hfind2, hfind]
          simp [Except.map, validClamp_isDone]
      · have htodo' : n.isTodo = false := by
          simpa using htodo
        have h1 : runToggleTodo st id = st := by
          unfold runToggleTodo
          rw [toggleTodo_not_todo st id n hfind htodo']
        rw [h1, h1]
  · intro n hok hnt
    have hfind : List.find? (fun m => m.id == id) st = some n := by
      unfold getNoteByID at hok
      cases hh : List.find? (fun m => m.id == id) st with
      | none =>
        rw [hh] at hok
        exact absurd hok (by simp)
      | some m =>
        rw [hh] at hok
        cases hok
        rfl
    have herr : toggleTodo st id = .error .notTodo :=
      toggleTodo_not_todo st id n hfind hnt
    have h1 : runToggleTodo st id = st := by
      unfold runToggleTodo
      rw [herr]
    exact ⟨herr, by rw [h1, h1]⟩

/-- Witness for `c8_toggle_twice_restores`: a two-note store holding a
starred note and a non-todo note, instantiating the non-todo clause at
note 2. -/
theorem c8_toggle_twice_restores_witness :
    (((getNoteByID (runToggleStar (runToggleStar
        [⟨1, "A".data, [], none, none, true, false, 1, [], true⟩,
         ⟨2, "B".data, [], none, none, false, false, 0, [], false⟩] 1) 1) 1).map
        (fun n => n.starred)
      = (getNoteByID
        [⟨1, "A".data, [], none, none, true, false, 1, [], true⟩,
         ⟨2, "B".data, [], none, none, false, false, 0, [], false⟩] 1).map
          (fun n => n.starred)) ∧
     (getNoteByID
        [⟨1, "A".data, [], none, none, true, false, 1, [], true⟩,
         ⟨2, "B".data, [], none, none, false, false, 0, [], false⟩] 2
       = .ok ⟨2, "B".data, [], none, none, false, false, 0, [], false⟩) ∧
     toggleTodo
        [⟨1, "A".data, [], none, none, true, false, 1, [], true⟩,
         ⟨2, "B".data, [], none, none, false, false, 0, [], false⟩] 2
       = .error .notTodo) :=
  ⟨(c8_toggle_twice_restores
      [⟨1, "A".data, [], none, none, true, false, 1, [], true⟩,
       ⟨2, "B".data, [], none, none, false, false, 0, [], false⟩] 1).1,
   by rfl,
   ((c8_toggle_twice_restores
      [⟨1, "A".data, [], none, none, true, false, 1, [], true⟩,
       ⟨2, "B".data, [], none, none, false, false, 0, [], false⟩] 2).2.2
     ⟨2, "B".data, [], none, none, false, false, 0, [], false⟩
     (by rfl) (by rfl)).1⟩

/-! Lemmas for the priority cycle. -/

theorem goMod_inrange (p : Int) (h0 : 0 ≤ p) (h3 : p ≤ 3) :
    0 ≤ goMod (p + 1) 4 ∧ goMod (p + 1) 4 ≤ 3 := by
  have hp : p = 0 ∨ p = 1 ∨ p = 2 ∨ p = 3 := by omega
  rcases hp with h | h | h | h <;> subst h <;> exact ⟨by decide, by decide⟩

theorem goMod_cycle (p : Int) (h0 : 0 ≤ p) (h3 : p ≤ 3) :
    goMod (goMod (goMod (goMod (p + 1) 4 + 1) 4 + 1) 4 + 1) 4 = p := by
  have hp : p = 0 ∨ p = 1 ∨ p = 2 ∨ p = 3 := by omega
  rcases hp with h | h | h | h <;> subst h <;> decide

theorem runCyclePriority_found (st : NoteStore) (id : Int) (n : Note)
    (hfind : List.find? (fun m => m.id == id) st = some n)
    (ht : n.title ≠ []) (h0 : 0 ≤ n.priority) (h3 : n.priority ≤ 3) :
    runCyclePriority st id
      = st.map (fun m => if m.id == id then
          { n with priority := goMod (n.priority + 1) 4 } else m) := by
  have hnid : n.id = id := by
    simpa using List.find?_some hfind
  have hinr := goMod_inrange n.priority h0 h3
  have hv : validClamp { n with priority := goMod (n.priority + 1) 4 }
      = { n with priority := goMod (n.priority + 1) 4 } :=
    validClamp_of_inrange _ hinr.1 hinr.2
  unfold runCyclePriority getNoteByID
  rw [hfind]
  show (match setPriority st id (goMod (n.priority + 1) 4) with
        | .ok st' => st'
        | .error _ => st) = _
  unfold setPriority getNoteByID
  rw [hfind]
  show (match repoUpdateNote st { n with priority := goMod (n.priority + 1) 4 } with
        | .ok st' => st'
        | .error _ => st) = _
  rw [repoUpdateNote_found st id { n with priority := goMod (n.priority + 1) 4 }
      (show ({ n with priority := goMod (n.priority + 1) 4 }).id = id from hnid)
      (show ({ n with priority := goMod (n.priority + 1) 4 }).title ≠ [] from ht)
      (any_of_find? hfind), hv]

theorem cycle_step (st : NoteStore) (id : Int) (n : Note)
    (hfind : List.find? (fun m => m.id == id) st = some n)
    (ht : n.title ≠ []) (h0 : 0 ≤ n.priority) (h3 : n.priority ≤ 3) :
    List.find? (fun m => m.id == id) (runCyclePriority st id)
      = some { n with priority := goMod (n.priority + 1) 4 } := by
  have hnid : n.id = id := by
    simpa using List.find?_some hfind
  rw [runCyclePriority_found st id n hfind ht h0 h3,
    find?_map_update st id _
      (show ({ n with priority := goMod (n.priority + 1) 4 }).id = id from hnid),
    hfind]
  rfl

/-- C9: for an existing, validly titled note with priority in {0,1,2,3}, one
cycle-priority action advances the priority one step along the cycle
none→low→medium→high→none (adding one modulo 4), and four actions return it
to the original priority. -/
theorem c9_cycle_priority_four_times (st : NoteStore) (id : Int) (n : Note)
    (hok : getNoteByID st id = .ok n) (ht : n.title ≠ [])
    (h0 : 0 ≤ n.priority) (h3 : n.priority ≤ 3) :
    ((getNoteByID (runCyclePriority st id) id).map (fun m => m.priority)
      = .ok (goMod (n.priority + 1) 4)) ∧
    ((getNoteByID (runCyclePriority (runCyclePriority (runCyclePriority
        (runCyclePriority st id) id) id) id) id).map (fun m => m.priority)
      = .ok n.priority) := by
  have hfind : List.find? (fun m => m.id == id) st = some n := by
    unfold getNoteByID at hok
    cases hh : List.find? (fun m => m.id == id) st with
    | none =>
      rw [hh] at hok
      exact absurd hok (by simp)
    | some m =>
      rw [hh] at hok
      cases hok
      rfl
  have h1r := goMod_inrange n.priority h0 h3
  have s1 := cycle_step st id n hfind ht h0 h3
  have h2r := goMod_inrange _ h1r.1 h1r.2
  have s2 := cycle_step _ id _ s1 ht h1r.1 h1r.2
  have h3r := goMod_inrange _ h2r.1 h2r.2
  have s3 := cycle_step _ id _ s2 ht h2r.1 h2r.2
  have s4 := cycle_step _ id _ s3 ht h3r.1 h3r.2
  constructor
  · unfold getNoteByID
    rw [s1]
    rfl
  · unfold getNoteByID
    rw [s4]
    show Except.ok (goMod (goMod (goMod (goMod (n.priority + 1) 4 + 1) 4 + 1) 4 + 1) 4)
        = Except.ok n.priority
    rw [goMod_cycle n.priority h0 h3]

/-- Witness for `c9_cycle_priority_four_times`: a single todo note with
priority 2 (medium). -/
theorem c9_cycle_priority_witness :
    (getNoteByID [⟨1, "A".data, [], none, none, true, false, 2, [], false⟩] 1
      = .ok ⟨1, "A".data, [], none, none, true, false, 2, [], false⟩) ∧
    ("A".data ≠ ([] : List Char)) ∧ ((0 : Int) ≤ 2) ∧ ((2 : Int) ≤ 3) ∧
    (((getNoteByID (runCyclePriority
        [⟨1, "A".data, [], none, none, true, false, 2, [], false⟩] 1) 1).map
        (fun m => m.priority) = .ok (goMod (2 + 1) 4)) ∧
     ((getNoteByID (runCyclePriority (runCyclePriority (runCyclePriority
        (runCyclePriority
          [⟨1, "A".data, [], none, none, true, false, 2, [], false⟩] 1) 1) 1) 1) 1).map
        (fun m => m.priority) = .ok 2)) :=
  ⟨by rfl, by decide, by decide, by decide,
   c9_cycle_priority_four_times
     [⟨1, "A".data, [], none, none, true, false, 2, [], false⟩] 1
     ⟨1, "A".data, [], none, none, true, false, 2, [], false⟩
     (by rfl) (by decide) (by decide) (by decide)⟩

/-! Lemmas for the confirmation dialog. -/

/-- The state a confirm dialog keeps as long as no left-arrow key arrives:
kind confirm, unconfirmed, cursor on "No". -/
def confirmAtNo (d : Dialog) : Prop :=
  d.dialogType = .dialogConfirm ∧ d.confirmed = false ∧ d.cursor = 1 ∧
  d.options = [yesText, noText]

theorem dialogUpdate_preserves_confirmAtNo (d : Dialog) (k : Key)
    (hk : k ≠ .left) (h : confirmAtNo d) : confirmAtNo (dialogUpdate d k) := by
  obtain ⟨h1, h2, h3, h4⟩ := h
  by_cases hv : d.visible
  · cases k with
    | left => exact absurd rfl hk
    | escape =>
      refine ⟨?_, ?_, ?_, ?_⟩ <;>
        simp [dialogUpdate, dialogHide, hv, h1, h2, h3, h4]
    | enter =>
      refine ⟨?_, ?_, ?_, ?_⟩ <;>
        simp [dialogUpdate, dialogHide, hv, h1, h2, h3, h4]
    | right =>
      refine ⟨?_, ?_, ?_, ?_⟩ <;>
        simp [dialogUpdate, dialogHide, hv, h1, h2, h3, h4]
    | up =>
      refine ⟨?_, ?_, ?_, ?_⟩ <;>
        simp [dialogUpdate, dialogHide, hv, h1, h2, h3, h4]
    | down =>
      refine ⟨?_, ?_, ?_, ?_⟩ <;>
        simp [dialogUpdate, dialogHide, hv, h1, h2, h3, h4]
    | other =>
      refine ⟨?_, ?_, ?_, ?_⟩ <;>
        simp [dialogUpdate, dialogHide, hv, h1, h2, h3, h4]
  · have hv' : d.visible = false := by simpa using hv
    refine ⟨?_, ?_, ?_, ?_⟩ <;> simp [dialogUpdate, hv', h1, h2, h3, h4]

theorem handleDialogInput_enter_none (a : AppDialog) (dk : Dialog)
    (h1 : dk.dialogType = .dialogConfirm) (h2 : dk.confirmed = false)
    (h3 : dk.cursor = 1) :
    (handleDialogInput { a with dialog := dk } Key.enter).2 = none := by
  by_cases hv : dk.visible
  · simp [handleDialogInput, dialogUpdate, dialogHide, hv, h1, h2, h3]
  · have hv' : dk.visible = false := by simpa using hv
    simp [handleDialogInput, dialogUpdate, dialogHide, hv', h2]

theorem foldl_dialogUpdate_confirmAtNo (d : Dialog) (ks : List Key)
    (hks : Key.left ∉ ks) (h : confirmAtNo d) :
    confirmAtNo (List.foldl dialogUpdate d ks) := by
  induction ks generalizing d with
  | nil => exact h
  | cons k ks ih =>
    have hk : k ≠ Key.left := by
      rintro rfl
      exact hks (List.mem_cons_self _ _)
    have hks' : Key.left ∉ ks := fun hm => hks (List.mem_cons_of_mem k hm)
    exact ih (dialogUpdate d k) hks'
      (dialogUpdate_preserves_confirmAtNo d k hk h)

/-- C10: a confirmation dialog opens with the cursor on "No" (index 1 of
the Yes/No options); after any key sequence that never moves the cursor
left, the dialog is still unconfirmed, and pressing Enter then closes it
without dispatching any action — in particular Enter immediately after the
dialog opens leaves the destructive action undispatched, and confirming
requires first moving the cursor to "Yes". -/
theorem c10_confirm_defaults_to_no (d : Dialog) (t msgText : List Char)
    (a : AppDialog) (ks : List Key) (hks : Key.left ∉ ks) :
    (showConfirm d t msgText).cursor = 1 ∧
    (showConfirm d t msgText).options = [yesText, noText] ∧
    (List.foldl dialogUpdate (showConfirm d t msgText) ks).confirmed = false ∧
    (handleDialogInput
        { a with dialog := List.foldl dialogUpdate (showConfirm d t msgText) ks }
        Key.enter).2 = none := by
  have hinv0 : confirmAtNo (showConfirm d t msgText) := ⟨rfl, rfl, rfl, rfl⟩
  have hinv := foldl_dialogUpdate_confirmAtNo _ ks hks hinv0
  obtain ⟨h1, h2, h3, h4⟩ := hinv
  exact ⟨rfl, rfl, h2, handleDialogInput_enter_none a _ h1 h2 h3⟩

/-- Witness for `c10_confirm_defaults_to_no`: a delete-note dialog, a key
sequence of a right-arrow and a down-arrow (no left), then Enter. -/
theorem c10_confirm_defaults_to_no_witness :
    (Key.left ∉ [Key.right, Key.down]) ∧
    ((showConfirm ⟨.dialogInput, [], [], [], 0, false, false, []⟩
        "Delete Note".data "Delete this note?".data).cursor = 1 ∧
     (showConfirm ⟨.dialogInput, [], [], [], 0, false, false, []⟩
        "Delete Note".data "Delete this note?".data).options = [yesText, noText] ∧
     (List.foldl dialogUpdate
        (showConfirm ⟨.dialogInput, [], [], [], 0, false, false, []⟩
          "Delete Note".data "Delete this note?".data)
        [Key.right, Key.down]).confirmed = false ∧
     (handleDialogInput
        { (⟨⟨.dialogInput, [], [], [], 0, false, false, []⟩, dialogTypeDelete, true,
            some ⟨1, "T".data, [], none, none, false, false, 0, [], false⟩,
            none⟩ : AppDialog) with
          dialog := List.foldl dialogUpdate
            (showConfirm ⟨.dialogInput, [], [], [], 0, false, false, []⟩
              "Delete Note".data "Delete this note?".data)
            [Key.right, Key.down] }
        Key.enter).2 = none) :=
  ⟨by decide,
   c10_confirm_defaults_to_no ⟨.dialogInput, [], [], [], 0, false, false, []⟩
     "Delete Note".data "Delete this note?".data
     ⟨⟨.dialogInput, [], [], [], 0, false, false, []⟩, dialogTypeDelete, true,
      some ⟨1, "T".data, [], none, none, false, false, 0, [], false⟩, none⟩
     [Key.right, Key.down] (by decide)⟩

end Kiroku
